import Mathlib

/-!
Verification of the numeric core of the `rlpomdp` repository: the kernelized
SVM dual solver (`research/ml/svm.py`) and the MLP optimizer strategies
(`research/ml/neural_networks/optimizer.py`).

Numbers are modelled as exact rationals (`ℚ`); numpy arrays become functions
out of `Fin` types (matrices) or `List`s (the dynamically sized support-vector
arrays).  `np.sqrt` has no rational counterpart, so the AdaGrad update is
parametrized by an abstract `sqrt : ℚ → ℚ`; theorems that depend on its
behaviour take the relevant facts (monotone and positive on positives) as
hypotheses.  Python exceptions become `Except`/`Option` results.
-/

/-- `xi.dot(xj)` for two 1-D numpy vectors of length `m`. -/
def dotF {m : ℕ} (u v : Fin m → ℚ) : ℚ := ∑ k, u k * v k

/-- `A.T` for a 2-D numpy array. -/
def transposeF {n m : ℕ} (A : Fin n → Fin m → ℚ) : Fin m → Fin n → ℚ :=
  fun k i => A i k

/-- `A.dot(B)` for 2-D numpy arrays (matrix product). -/
def matMulF {n m p : ℕ} (A : Fin n → Fin m → ℚ) (B : Fin m → Fin p → ℚ) :
    Fin n → Fin p → ℚ :=
  fun i j => ∑ k, A i k * B k j

/-- `u.dot(A)` for a 1-D vector `u` and matrix `A` (row vector times matrix). -/
def vecMatF {n p : ℕ} (u : Fin n → ℚ) (A : Fin n → Fin p → ℚ) : Fin p → ℚ :=
  fun j => ∑ i, u i * A i j

/-- `y_ * X` in `_vectorized_loss`: broadcasting the column vector
`y_ = y.reshape(-1, 1)` over `X` scales row `i` of `X` by `y i`. -/
def rowScale {n m : ℕ} (y : Fin n → ℚ) (X : Fin n → Fin m → ℚ) :
    Fin n → Fin m → ℚ :=
  fun i k => y i * X i k

/-- `LinearKernel.transform(xi, xj) = xi.dot(xj)` on 1-D vectors
(`svm.py`, class `LinearKernel`). -/
def LinearKernel.transform {m : ℕ} (xi xj : Fin m → ℚ) : ℚ := dotF xi xj

/-- `LinearKernel.transform` applied to 2-D arrays, as done by
`self.kernel.transform(X_, X_.T)` inside `SVM._vectorized_loss`: numpy's
`xi.dot(xj)` on matrices is the matrix product. -/
def LinearKernel.transformMat {n m : ℕ} (A : Fin n → Fin m → ℚ)
    (B : Fin m → Fin n → ℚ) : Fin n → Fin n → ℚ :=
  matMulF A B

/-- `SVM._loss(alphas, X, y)`: the doubly nested pairwise-sum form of the
negated dual objective,
`-(sum_i alphas_i - 0.5 * sum_i sum_j a_i*a_j*y_i*y_j*K(x_i, x_j))`,
parametrized by the SVM's kernel `K` (`self.kernel.transform`). -/
def SVM.loss {n m : ℕ} (K : (Fin m → ℚ) → (Fin m → ℚ) → ℚ)
    (alphas : Fin n → ℚ) (X : Fin n → Fin m → ℚ) (y : Fin n → ℚ) : ℚ :=
  -1 * ((∑ i, alphas i) -
    1/2 * ∑ i, ∑ j, alphas i * alphas j * y i * y j * K (X i) (X j))

/-- `SVM._vectorized_loss(alphas, X, y)`: the vectorized form
`-(alphas.sum() - 0.5 * alphas.T.dot(H).dot(alphas))` with
`H = kernel.transform(y_*X, (y_*X).T)` for the linear kernel. -/
def SVM.vectorized_loss {n m : ℕ} (alphas : Fin n → ℚ)
    (X : Fin n → Fin m → ℚ) (y : Fin n → ℚ) : ℚ :=
  -1 * ((∑ i, alphas i) -
    1/2 * dotF
      (vecMatF alphas
        (LinearKernel.transformMat (rowScale y X) (transposeF (rowScale y X))))
      alphas)

/-- C1: for every `alphas`, `X` and `y` with entries in `{-1, +1}`, the
pairwise-sum loss with the linear kernel and the vectorized loss return the
same scalar (exact equality in the rational model). -/
theorem svm_loss_eq_vectorized_loss {n m : ℕ} (alphas : Fin n → ℚ)
    (X : Fin n → Fin m → ℚ) (y : Fin n → ℚ)
    (_hy : ∀ i, y i = 1 ∨ y i = -1) :
    SVM.loss LinearKernel.transform alphas X y =
      SVM.vectorized_loss alphas X y := by
  clear _hy
  unfold SVM.loss SVM.vectorized_loss LinearKernel.transform
    LinearKernel.transformMat matMulF dotF vecMatF rowScale transposeF
  have h : (∑ i, ∑ j, alphas i * alphas j * y i * y j * ∑ k, X i k * X j k) =
      ∑ j, (∑ i, alphas i * ∑ k, (y i * X i k) * (y j * X j k)) * alphas j := by
    rw [Finset.sum_comm]
    refine Finset.sum_congr rfl fun j _ => ?_
    rw [Finset.sum_mul]
    refine Finset.sum_congr rfl fun i _ => ?_
    rw [Finset.mul_sum, Finset.mul_sum, Finset.sum_mul]
    refine Finset.sum_congr rfl fun k _ => ?_
    ring
  rw [h]

/-- Witness for C1 at a concrete input: `n = m = 1`, `alphas = [3]`,
`X = [[2]]`, `y = [-1]`. -/
theorem svm_loss_eq_vectorized_loss_witness :
    SVM.loss LinearKernel.transform (fun _ : Fin 1 => (3 : ℚ))
        (fun (_ : Fin 1) (_ : Fin 1) => (2 : ℚ)) (fun _ => (-1 : ℚ)) =
      SVM.vectorized_loss (fun _ : Fin 1 => (3 : ℚ))
        (fun (_ : Fin 1) (_ : Fin 1) => (2 : ℚ)) (fun _ => (-1 : ℚ)) :=
  svm_loss_eq_vectorized_loss _ _ _ (fun _ => Or.inr rfl)

/-- `np.where(self.opt_result_.x > 0.001)` in `SVM.fit`: the indices of the
optimized dual variables strictly above the 0.001 threshold, in order. -/
def SVM.sv_idx {n : ℕ} (alphas : Fin n → ℚ) : List (Fin n) :=
  (List.finRange n).filter (fun i => decide (1/1000 < alphas i))

/-- `self.sup_X_ = X[sv_idx]` in `SVM.fit`. -/
def SVM.sup_X_ {n m : ℕ} (alphas : Fin n → ℚ) (X : Fin n → Fin m → ℚ) :
    List (Fin m → ℚ) :=
  (SVM.sv_idx alphas).map X

/-- `self.sup_y_ = y[sv_idx]` in `SVM.fit`. -/
def SVM.sup_y_ {n : ℕ} (alphas y : Fin n → ℚ) : List ℚ :=
  (SVM.sv_idx alphas).map y

/-- `self.sup_alphas_ = self.opt_result_.x[sv_idx]` in `SVM.fit`. -/
def SVM.sup_alphas_ {n : ℕ} (alphas : Fin n → ℚ) : List ℚ :=
  (SVM.sv_idx alphas).map alphas

lemma SVM.sv_idx_mem {n : ℕ} (alphas : Fin n → ℚ) (i : Fin n) :
    i ∈ SVM.sv_idx alphas ↔ 1/1000 < alphas i := by
  unfold SVM.sv_idx
  rw [List.mem_filter]
  simp [List.mem_finRange]

/-- C5: after `fit`, the three stored support-vector arrays have the same
first dimension, every stored alpha strictly exceeds 0.001, and the retained
indices are exactly the training examples whose optimized alpha exceeds the
threshold (the stored arrays being `X`, `y`, `alphas` read off along those
indices). -/
theorem svm_support_vector_invariants {n m : ℕ} (alphas : Fin n → ℚ)
    (X : Fin n → Fin m → ℚ) (y : Fin n → ℚ) (i : Fin n) (a : ℚ) :
    (SVM.sup_X_ alphas X).length = (SVM.sv_idx alphas).length
    ∧ (SVM.sup_y_ alphas y).length = (SVM.sv_idx alphas).length
    ∧ (SVM.sup_alphas_ alphas).length = (SVM.sv_idx alphas).length
    ∧ (a ∈ SVM.sup_alphas_ alphas → 1/1000 < a)
    ∧ (i ∈ SVM.sv_idx alphas ↔ 1/1000 < alphas i)
    ∧ SVM.sup_X_ alphas X = (SVM.sv_idx alphas).map X
    ∧ SVM.sup_y_ alphas y = (SVM.sv_idx alphas).map y
    ∧ SVM.sup_alphas_ alphas = (SVM.sv_idx alphas).map alphas := by
  refine ⟨List.length_map _ _, List.length_map _ _, List.length_map _ _,
    ?_, SVM.sv_idx_mem alphas i, rfl, rfl, rfl⟩
  intro ha
  rcases List.mem_map.1 ha with ⟨j, hj, hja⟩
  rw [← hja]
  exact (SVM.sv_idx_mem alphas j).1 hj

/-- Witness for C5 at `n = m = 1`, `alphas = [1]` (so index 0 is kept),
`a = 1`. -/
theorem svm_support_vector_invariants_witness :
    (SVM.sup_X_ (fun _ : Fin 1 => (1 : ℚ)) (fun (_ : Fin 1) (_ : Fin 1) => (0 : ℚ))).length
        = (SVM.sv_idx (fun _ : Fin 1 => (1 : ℚ))).length
    ∧ (SVM.sup_y_ (fun _ : Fin 1 => (1 : ℚ)) (fun _ => (1 : ℚ))).length
        = (SVM.sv_idx (fun _ : Fin 1 => (1 : ℚ))).length
    ∧ (SVM.sup_alphas_ (fun _ : Fin 1 => (1 : ℚ))).length
        = (SVM.sv_idx (fun _ : Fin 1 => (1 : ℚ))).length
    ∧ ((1 : ℚ) ∈ SVM.sup_alphas_ (fun _ : Fin 1 => (1 : ℚ)) → 1/1000 < (1 : ℚ))
    ∧ ((0 : Fin 1) ∈ SVM.sv_idx (fun _ : Fin 1 => (1 : ℚ))
        ↔ 1/1000 < (fun _ : Fin 1 => (1 : ℚ)) 0)
    ∧ SVM.sup_X_ (fun _ : Fin 1 => (1 : ℚ)) (fun (_ : Fin 1) (_ : Fin 1) => (0 : ℚ))
        = (SVM.sv_idx (fun _ : Fin 1 => (1 : ℚ))).map (fun (_ : Fin 1) (_ : Fin 1) => (0 : ℚ))
    ∧ SVM.sup_y_ (fun _ : Fin 1 => (1 : ℚ)) (fun _ => (1 : ℚ))
        = (SVM.sv_idx (fun _ : Fin 1 => (1 : ℚ))).map (fun _ => (1 : ℚ))
    ∧ SVM.sup_alphas_ (fun _ : Fin 1 => (1 : ℚ))
        = (SVM.sv_idx (fun _ : Fin 1 => (1 : ℚ))).map (fun _ => (1 : ℚ)) :=
  svm_support_vector_invariants (fun _ => 1) (fun _ _ => 0) (fun _ => 1) 0 1

/-- The accumulator loop
`_sum = 0; for xi, yi, ai in zip(sup_X_, sup_y_, sup_alphas_): _sum += ai * yi * K(xi, x)`
shared by `SVM._compute_offset` and `SVM._compute_discriminant`.  The list
holds the zipped triples `(xi, (yi, ai))`. -/
def SVM.svLoop {m : ℕ} (K : (Fin m → ℚ) → (Fin m → ℚ) → ℚ) (x : Fin m → ℚ) :
    List ((Fin m → ℚ) × ℚ × ℚ) → ℚ → ℚ
  | [], acc => acc
  | t :: rest, acc => SVM.svLoop K x rest (acc + t.2.2 * t.2.1 * K t.1 x)

/-- The fitted state stored on the estimator by `SVM.fit`:
`sup_X_`, `sup_y_`, `sup_alphas_`, `offset_` and the owned kernel. -/
structure SVMFitted (m : ℕ) where
  kernel : (Fin m → ℚ) → (Fin m → ℚ) → ℚ
  sup_X_ : List (Fin m → ℚ)
  sup_y_ : List ℚ
  sup_alphas_ : List ℚ
  offset_ : ℚ

/-- `zip(self.sup_X_, self.sup_y_, self.sup_alphas_)`. -/
def SVMFitted.zipSV {m : ℕ} (f : SVMFitted m) :
    List ((Fin m → ℚ) × ℚ × ℚ) :=
  f.sup_X_.zip (f.sup_y_.zip f.sup_alphas_)

/-- `SVM._compute_discriminant(X)`: for every row `x` of `X`,
`g = Σ_i ai*yi*K(xi, x)` over the stored support vectors plus `offset_`. -/
def SVM.compute_discriminant {m : ℕ} (f : SVMFitted m)
    (X : List (Fin m → ℚ)) : List ℚ :=
  X.map (fun x => SVM.svLoop f.kernel x f.zipSV 0 + f.offset_)

/-- `SVM.predict(X)`: `yhat = (g > .5).astype(int)` over the discriminant
values. -/
def SVM.predict {m : ℕ} (f : SVMFitted m) (X : List (Fin m → ℚ)) : List ℤ :=
  (SVM.compute_discriminant f X).map (fun g => if 1/2 < g then 1 else 0)

/-- The closed-form support-vector sum `Σ_i alpha_i * y_i * K(x_i, x)`. -/
def SVM.svTermSum {m : ℕ} (f : SVMFitted m) (x : Fin m → ℚ) : ℚ :=
  (f.zipSV.map (fun t => t.2.2 * t.2.1 * f.kernel t.1 x)).sum

lemma SVM.svLoop_eq_sum {m : ℕ} (K : (Fin m → ℚ) → (Fin m → ℚ) → ℚ)
    (x : Fin m → ℚ) (l : List ((Fin m → ℚ) × ℚ × ℚ)) (acc : ℚ) :
    SVM.svLoop K x l acc = acc + (l.map (fun t => t.2.2 * t.2.1 * K t.1 x)).sum := by
  induction l generalizing acc with
  | nil => simp [SVM.svLoop]
  | cons t rest ih =>
    rw [SVM.svLoop, ih]
    simp [List.map_cons, List.sum_cons]
    ring

/-- C2: `predict` computes, for every row of `X`, the discriminant
`g(x) = Σ_i alpha_i*y_i*K(x_i, x) + offset_` over the stored support vectors,
and returns label `1` exactly when `g(x) > 0.5` and label `0` otherwise. -/
theorem svm_predict_spec {m : ℕ} (f : SVMFitted m) (X : List (Fin m → ℚ))
    (x : Fin m → ℚ) :
    SVM.compute_discriminant f X
        = X.map (fun xr => SVM.svTermSum f xr + f.offset_)
    ∧ SVM.predict f X
        = X.map (fun xr => if 1/2 < SVM.svTermSum f xr + f.offset_
            then (1 : ℤ) else 0)
    ∧ ((if 1/2 < SVM.svTermSum f x + f.offset_ then (1 : ℤ) else 0) = 1
        ↔ 1/2 < SVM.svTermSum f x + f.offset_)
    ∧ ((if 1/2 < SVM.svTermSum f x + f.offset_ then (1 : ℤ) else 0) = 0
        ↔ ¬ 1/2 < SVM.svTermSum f x + f.offset_) := by
  have hdisc : SVM.compute_discriminant f X
      = X.map (fun xr => SVM.svTermSum f xr + f.offset_) := by
    unfold SVM.compute_discriminant SVM.svTermSum
    refine List.map_congr_left fun xr _ => ?_
    rw [SVM.svLoop_eq_sum]
    ring
  refine ⟨hdisc, ?_, ?_, ?_⟩
  · unfold SVM.predict
    rw [hdisc, List.map_map]
    rfl
  · by_cases h : 1/2 < SVM.svTermSum f x + f.offset_ <;> simp [h]
  · by_cases h : 1/2 < SVM.svTermSum f x + f.offset_ <;> simp [h]

/-- `SVM._compute_offset()`: `offset = y_k - Σ_i alpha_i*y_i*K(x_i, x_k)` with
`x_k = sup_X_[0]`, `y_k = sup_y_[0]`.  Indexing `[0]` into an empty support
array raises `IndexError` in numpy, modelled as `none`. -/
def SVM.compute_offset {m : ℕ} (K : (Fin m → ℚ) → (Fin m → ℚ) → ℚ)
    (supX : List (Fin m → ℚ)) (supY supA : List ℚ) : Option ℚ :=
  match supX, supY with
  | xk :: xtl, yk :: ytl =>
      some (yk - SVM.svLoop K xk ((xk :: xtl).zip ((yk :: ytl).zip supA)) 0)
  | _, _ => none

/-- The tail of `SVM.fit` after the constrained minimizer returned `alphas`:
extract the support vectors and compute the offset. -/
def SVM.fit_offset {n m : ℕ} (K : (Fin m → ℚ) → (Fin m → ℚ) → ℚ)
    (alphas : Fin n → ℚ) (X : Fin n → Fin m → ℚ) (y : Fin n → ℚ) : Option ℚ :=
  SVM.compute_offset K (SVM.sup_X_ alphas X) (SVM.sup_y_ alphas y)
    (SVM.sup_alphas_ alphas)

/-- C9: the offset computation at the end of `fit` is well-defined exactly
when some optimized alpha strictly exceeds 0.001; with no such alpha the
support arrays are empty and indexing `sup_X_[0]` fails (modelled `none`). -/
theorem svm_offset_defined_iff_support_nonempty {n m : ℕ}
    (K : (Fin m → ℚ) → (Fin m → ℚ) → ℚ) (alphas : Fin n → ℚ)
    (X : Fin n → Fin m → ℚ) (y : Fin n → ℚ) :
    ((SVM.fit_offset K alphas X y).isSome ↔ ∃ i, 1/1000 < alphas i)
    ∧ ((SVM.fit_offset K alphas X y = none) ↔ ∀ i, ¬ 1/1000 < alphas i) := by
  have hidx : (∃ i, 1/1000 < alphas i) ↔ SVM.sv_idx alphas ≠ [] := by
    constructor
    · rintro ⟨i, hi⟩ hnil
      have := (SVM.sv_idx_mem alphas i).2 hi
      rw [hnil] at this
      exact List.not_mem_nil i this
    · intro hne
      rcases List.exists_mem_of_ne_nil _ hne with ⟨i, hi⟩
      exact ⟨i, (SVM.sv_idx_mem alphas i).1 hi⟩
  cases h : SVM.sv_idx alphas with
  | nil =>
    have hfo : SVM.fit_offset K alphas X y = none := by
      unfold SVM.fit_offset SVM.sup_X_ SVM.sup_y_ SVM.sup_alphas_
      rw [h]
      rfl
    rw [hfo, hidx, h]
    constructor
    · simp
    · constructor
      · intro _ i hi
        have := (SVM.sv_idx_mem alphas i).2 hi
        rw [h] at this
        exact List.not_mem_nil i this
      · intro _
        rfl
  | cons j rest =>
    have hfo : (SVM.fit_offset K alphas X y).isSome = true := by
      unfold SVM.fit_offset SVM.sup_X_ SVM.sup_y_ SVM.sup_alphas_
      rw [h]
      rfl
    rw [hidx, h]
    refine ⟨⟨fun _ => by simp, fun _ => hfo⟩, ?_⟩
    constructor
    · intro hnone
      rw [hnone] at hfo
      exact absurd hfo (by simp)
    · intro hall
      exact absurd
        ((SVM.sv_idx_mem alphas j).1 (by rw [h]; exact List.mem_cons_self j rest))
        (hall j)

/-- The "My Input validation" block at the top of `SVM.fit`:
raise `ValueError` when `self.kernel.name != 'linear' and vectorized`;
otherwise default `vectorized` to whether the kernel is linear when it was
passed as `None`.  Returns the `vectorized` flag used to pick the loss. -/
def SVM.fit_validate (kname : String) (vectorized : Option Bool) :
    Except Unit Bool :=
  if kname ≠ "linear" ∧ vectorized = some true then Except.error ()
  else Except.ok (vectorized.getD (decide (kname = "linear")))

/-- C4: `fit` raises its validation error exactly when `vectorized=True` is
passed with a non-linear kernel; with `vectorized=None` it proceeds without
error and uses `True` exactly for the linear kernel. -/
theorem svm_fit_vectorized_validation (kname : String) (vectorized : Option Bool) :
    (SVM.fit_validate kname vectorized = Except.error ()
        ↔ (vectorized = some true ∧ kname ≠ "linear"))
    ∧ SVM.fit_validate kname none = Except.ok (decide (kname = "linear"))
    ∧ SVM.fit_validate kname none ≠ Except.error () := by
  refine ⟨?_, ?_, ?_⟩
  · unfold SVM.fit_validate
    by_cases h : kname ≠ "linear" ∧ vectorized = some true
    · rw [if_pos h]
      exact ⟨fun _ => ⟨h.2, h.1⟩, fun _ => rfl⟩
    · rw [if_neg h]
      constructor
      · intro habs
        exact absurd habs (by simp)
      · intro hc
        exact absurd ⟨hc.2, hc.1⟩ h
  · unfold SVM.fit_validate
    have h : ¬ (kname ≠ "linear" ∧ (none : Option Bool) = some true) := by
      rintro ⟨-, habs⟩
      exact Option.noConfusion habs
    rw [if_neg h]
    rfl
  · unfold SVM.fit_validate
    have h : ¬ (kname ≠ "linear" ∧ (none : Option Bool) = some true) := by
      rintro ⟨-, habs⟩
      exact Option.noConfusion habs
    rw [if_neg h]
    exact fun habs => Except.noConfusion habs

/-- The kernel object built by `SVM.__init__` from a configuration key. -/
inductive KernelInst
  | gaussian (radius : ℚ)
  | linear
  | polynomial (degree : ℕ)
  | sigmoid
  | tanh

/-- The Python exception class escaping `SVM.__init__`. -/
inductive PyErr
  | typeError
  | valueError
deriving DecidableEq

/-- The keys of `KERNEL_MAP`. -/
def KERNEL_MAP_keys : List String :=
  ["gaussian", "linear", "polynomial", "sigmoid", "tanh"]

/-- `SVM.__init__(kernel)` for a string `kernel`:
`KERNEL_MAP.get(kernel)` yields the kernel class, or `None` for an unknown
key, in which case calling `None(**kernel_args)` raises `TypeError` (the
later `if kernel is None` `ValueError` is unreachable for string input);
`GaussianKernel.__init__` raises `ValueError` when `radius <= 0`. -/
def SVM.init_kernel (kernel : String) (radius : ℚ) (degree : ℕ) :
    Except PyErr KernelInst :=
  if kernel = "gaussian" then
    if radius ≤ 0 then Except.error PyErr.valueError
    else Except.ok (KernelInst.gaussian radius)
  else if kernel = "linear" then Except.ok KernelInst.linear
  else if kernel = "polynomial" then Except.ok (KernelInst.polynomial degree)
  else if kernel = "sigmoid" then Except.ok KernelInst.sigmoid
  else if kernel = "tanh" then Except.ok KernelInst.tanh
  else Except.error PyErr.typeError

/-- C8: constructing an SVM with a kernel string outside the five valid keys
raises immediately at construction, and constructing with a valid key (with
the default kernel arguments `radius = .5`, `degree = 2`) succeeds. -/
theorem svm_init_kernel_key (kernel : String) :
    (kernel ∉ KERNEL_MAP_keys →
      SVM.init_kernel kernel (1/2) 2 = Except.error PyErr.typeError)
    ∧ (kernel ∈ KERNEL_MAP_keys →
      ∃ k, SVM.init_kernel kernel (1/2) 2 = Except.ok k) := by
  constructor
  · intro hn
    have h1 : kernel ≠ "gaussian" := fun h => hn (by rw [h]; simp [KERNEL_MAP_keys])
    have h2 : kernel ≠ "linear" := fun h => hn (by rw [h]; simp [KERNEL_MAP_keys])
    have h3 : kernel ≠ "polynomial" := fun h => hn (by rw [h]; simp [KERNEL_MAP_keys])
    have h4 : kernel ≠ "sigmoid" := fun h => hn (by rw [h]; simp [KERNEL_MAP_keys])
    have h5 : kernel ≠ "tanh" := fun h => hn (by rw [h]; simp [KERNEL_MAP_keys])
    unfold SVM.init_kernel
    rw [if_neg h1, if_neg h2, if_neg h3, if_neg h4, if_neg h5]
  · intro hm
    unfold SVM.init_kernel
    rcases List.mem_cons.1 hm with h | hm
    · subst h
      exact ⟨KernelInst.gaussian (1/2), by norm_num⟩
    rcases List.mem_cons.1 hm with h | hm
    · subst h
      exact ⟨KernelInst.linear, rfl⟩
    rcases List.mem_cons.1 hm with h | hm
    · subst h
      exact ⟨KernelInst.polynomial 2, rfl⟩
    rcases List.mem_cons.1 hm with h | hm
    · subst h
      exact ⟨KernelInst.sigmoid, rfl⟩
    rcases List.mem_cons.1 hm with h | hm
    · subst h
      exact ⟨KernelInst.tanh, rfl⟩
    · exact absurd hm (List.not_mem_nil kernel)

/-- Witness for C8: the unknown key `"rbf"` fails with `TypeError`; the valid
key `"linear"` succeeds. -/
theorem svm_init_kernel_key_witness :
    SVM.init_kernel "rbf" (1/2) 2 = Except.error PyErr.typeError
    ∧ ∃ k, SVM.init_kernel "linear" (1/2) 2 = Except.ok k :=
  ⟨(svm_init_kernel_key "rbf").1 (by decide),
   (svm_init_kernel_key "linear").2 (by decide)⟩

/-- Elementwise gradient clipping in `MomentumOptimizer.layer_update`:
`dJdW_i[dJdW_i > clip_thresh] = clip_thresh` followed by
`dJdW_i[dJdW_i < -1*clip_thresh] = -1*clip_thresh`.  `none` models the
default `clip_thresh = np.inf`, for which both masks are empty. -/
def clipAt (t : Option ℚ) (x : ℚ) : ℚ :=
  match t with
  | none => x
  | some c =>
      let x1 := if x > c then c else x
      if x1 < -1 * c then -1 * c else x1

/-- Python's `max(a, b, key=abs)`: the argument of larger absolute value,
the first (`a`) on ties. -/
def maxByAbs (a b : ℚ) : ℚ := if |a| < |b| then b else a

/-- `arr.max()` for a nonempty 2-D numpy array. -/
def matMax {p q : ℕ} (g : Fin (p+1) → Fin (q+1) → ℚ) : ℚ :=
  Finset.univ.sup' Finset.univ_nonempty
    (fun ij : Fin (p+1) × Fin (q+1) => g ij.1 ij.2)

/-- `arr.min()` for a nonempty 2-D numpy array. -/
def matMin {p q : ℕ} (g : Fin (p+1) → Fin (q+1) → ℚ) : ℚ :=
  Finset.univ.inf' Finset.univ_nonempty
    (fun ij : Fin (p+1) × Fin (q+1) => g ij.1 ij.2)

/-- `grad_max = max((grad_max, max(dJdW_i.max(), dJdW_i.min(), key=abs)))`,
the running-max step shared by both optimizers. -/
def grad_max_step {p q : ℕ} (gm : ℚ) (g : Fin (p+1) → Fin (q+1) → ℚ) : ℚ :=
  max gm (maxByAbs (matMax g) (matMin g))

lemma le_matMax {p q : ℕ} (g : Fin (p+1) → Fin (q+1) → ℚ)
    (i : Fin (p+1)) (j : Fin (q+1)) : g i j ≤ matMax g :=
  Finset.le_sup' (fun ij : Fin (p+1) × Fin (q+1) => g ij.1 ij.2)
    (Finset.mem_univ (i, j))

lemma matMin_le {p q : ℕ} (g : Fin (p+1) → Fin (q+1) → ℚ)
    (i : Fin (p+1)) (j : Fin (q+1)) : matMin g ≤ g i j :=
  Finset.inf'_le (fun ij : Fin (p+1) × Fin (q+1) => g ij.1 ij.2)
    (Finset.mem_univ (i, j))

lemma abs_maxByAbs (a b : ℚ) : |maxByAbs a b| = max |a| |b| := by
  unfold maxByAbs
  by_cases h : |a| < |b|
  · rw [if_pos h, max_eq_right (le_of_lt h)]
  · rw [if_neg h, max_eq_left (le_of_not_lt h)]

lemma abs_le_abs_maxByAbs {p q : ℕ} (g : Fin (p+1) → Fin (q+1) → ℚ)
    (i : Fin (p+1)) (j : Fin (q+1)) :
    |g i j| ≤ |maxByAbs (matMax g) (matMin g)| := by
  rw [abs_maxByAbs, max_comm]
  exact abs_le_max_abs_abs (matMin_le g i j) (le_matMax g i j)

/-- The hyperparameters and per-layer mutable state of `MomentumOptimizer`
relevant to one layer `i`: learning rate `lr`, momentum `mu`, regularization
`reg`, `clip_thresh` (`none` = `np.inf`), and the velocity arrays
`vW_[i]`, `vb_[i]`. -/
structure MomentumState (p q : ℕ) where
  lr : ℚ
  mu : ℚ
  reg : ℚ
  clip_thresh : Option ℚ
  vW : Fin (p+1) → Fin (q+1) → ℚ
  vb : Fin (q+1) → ℚ

/-- Everything observable after `MomentumOptimizer.layer_update`: the new
optimizer state, the returned triple, and (`dJdW_out`, `dJdb_out`) the
contents of the caller-supplied gradient arrays after the call — the code
clips them in place, while the later regularization and velocity lines
rebind fresh arrays and leave the caller's arrays alone. -/
structure MomOut (p q : ℕ) where
  state : MomentumState p q
  w_update : Fin (p+1) → Fin (q+1) → ℚ
  b_update : Fin (q+1) → ℚ
  grad_max : ℚ
  dJdW_out : Fin (p+1) → Fin (q+1) → ℚ
  dJdb_out : Fin (q+1) → ℚ

/-- `MomentumOptimizer.layer_update(mlp, i, dJdW_i, dJdb_i, grad_max)`:
clip the gradients in place, update the running max from the clipped weight
gradient, subtract `reg * W_i` / `reg * b_i`, update the velocities
`v = mu*v + lr*gradient`, and return them as the updates. -/
def MomentumOptimizer.layer_update {p q : ℕ} (s : MomentumState p q)
    (W : Fin (p+1) → Fin (q+1) → ℚ) (b : Fin (q+1) → ℚ)
    (dJdW : Fin (p+1) → Fin (q+1) → ℚ) (dJdb : Fin (q+1) → ℚ)
    (grad_max : ℚ) : MomOut p q :=
  let cW := fun i j => clipAt s.clip_thresh (dJdW i j)
  let cb := fun j => clipAt s.clip_thresh (dJdb j)
  let gm := grad_max_step grad_max cW
  let aW := fun i j => cW i j - s.reg * W i j
  let ab := fun j => cb j - s.reg * b j
  let vW := fun i j => s.mu * s.vW i j + s.lr * aW i j
  let vb := fun j => s.mu * s.vb j + s.lr * ab j
  ⟨⟨s.lr, s.mu, s.reg, s.clip_thresh, vW, vb⟩, vW, vb, gm, cW, cb⟩

/-- The hyperparameters and per-layer mutable state of `AdaGradOptimizer`
relevant to one layer `i`: learning rate `lr`, `epsilon`, and the cache
arrays `cW_[i]`, `cb_[i]`. -/
structure AdaGradState (p q : ℕ) where
  lr : ℚ
  epsilon : ℚ
  cW : Fin (p+1) → Fin (q+1) → ℚ
  cb : Fin (q+1) → ℚ

/-- Everything observable after `AdaGradOptimizer.layer_update`, with
(`dJdW_out`, `dJdb_out`) the contents of the caller-supplied gradient arrays
after the call — AdaGrad performs no in-place operation on them. -/
structure AdaOut (p q : ℕ) where
  state : AdaGradState p q
  w_update : Fin (p+1) → Fin (q+1) → ℚ
  b_update : Fin (q+1) → ℚ
  grad_max : ℚ
  dJdW_out : Fin (p+1) → Fin (q+1) → ℚ
  dJdb_out : Fin (q+1) → ℚ

/-- `AdaGradOptimizer.layer_update(mlp, i, dJdW_i, dJdb_i, grad_max)`:
update the running max from the raw weight gradient, accumulate squared
gradients into the caches, and return
`lr * (gradient / np.sqrt(cache + epsilon))`.  `sqrt` abstracts `np.sqrt`. -/
def AdaGradOptimizer.layer_update {p q : ℕ} (sqrt : ℚ → ℚ)
    (s : AdaGradState p q) (dJdW : Fin (p+1) → Fin (q+1) → ℚ)
    (dJdb : Fin (q+1) → ℚ) (grad_max : ℚ) : AdaOut p q :=
  let gm := grad_max_step grad_max dJdW
  let cW := fun i j => s.cW i j + dJdW i j ^ 2
  let cb := fun j => s.cb j + dJdb j ^ 2
  ⟨⟨s.lr, s.epsilon, cW, cb⟩,
   fun i j => s.lr * (dJdW i j / sqrt (cW i j + s.epsilon)),
   fun j => s.lr * (dJdb j / sqrt (cb j + s.epsilon)),
   gm, dJdW, dJdb⟩

/-- C6: a Momentum optimizer with `mu=0`, `reg=0`, `clip_thresh=np.inf`
returns `lr * gradient` elementwise on every `layer_update` call (the
velocity state does not matter, so this holds on every call of any
sequence, in particular with a constant gradient). -/
theorem momentum_plain_gradient_descent {p q : ℕ} (s : MomentumState p q)
    (W dJdW : Fin (p+1) → Fin (q+1) → ℚ) (b dJdb : Fin (q+1) → ℚ) (gm : ℚ)
    (hmu : s.mu = 0) (hreg : s.reg = 0) (hclip : s.clip_thresh = none) :
    (MomentumOptimizer.layer_update s W b dJdW dJdb gm).w_update
        = (fun i j => s.lr * dJdW i j)
    ∧ (MomentumOptimizer.layer_update s W b dJdW dJdb gm).b_update
        = (fun j => s.lr * dJdb j) := by
  constructor
  · funext i j
    show s.mu * s.vW i j
        + s.lr * (clipAt s.clip_thresh (dJdW i j) - s.reg * W i j)
        = s.lr * dJdW i j
    rw [hmu, hreg, hclip]
    show 0 * s.vW i j + s.lr * (dJdW i j - 0 * W i j) = s.lr * dJdW i j
    ring
  · funext j
    show s.mu * s.vb j
        + s.lr * (clipAt s.clip_thresh (dJdb j) - s.reg * b j)
        = s.lr * dJdb j
    rw [hmu, hreg, hclip]
    show 0 * s.vb j + s.lr * (dJdb j - 0 * b j) = s.lr * dJdb j
    ring

/-- Witness for C6 at `lr = 2`, gradients `3` and `4`. -/
theorem momentum_plain_gradient_descent_witness :
    (MomentumOptimizer.layer_update
        (⟨2, 0, 0, none, fun _ _ => 0, fun _ => 0⟩ : MomentumState 0 0)
        (fun _ _ => 1) (fun _ => 1) (fun _ _ => 3) (fun _ => 4) 0).w_update
      = (fun i j =>
          (⟨2, 0, 0, none, fun _ _ => 0, fun _ => 0⟩ : MomentumState 0 0).lr
            * (fun (_ : Fin 1) (_ : Fin 1) => (3 : ℚ)) i j)
    ∧ (MomentumOptimizer.layer_update
        (⟨2, 0, 0, none, fun _ _ => 0, fun _ => 0⟩ : MomentumState 0 0)
        (fun _ _ => 1) (fun _ => 1) (fun _ _ => 3) (fun _ => 4) 0).b_update
      = (fun j =>
          (⟨2, 0, 0, none, fun _ _ => 0, fun _ => 0⟩ : MomentumState 0 0).lr
            * (fun (_ : Fin 1) => (4 : ℚ)) j) :=
  momentum_plain_gradient_descent _ _ _ _ _ _ rfl rfl rfl

/-- C3 counterexample: a Momentum `layer_update` (`mu=reg=0`,
`clip_thresh=np.inf`) on the constant weight gradient `-5` with running max
`0` returns `0` as the third value — not `max(0, |-5|) = 5` — so the third
returned value is not the running maximum *absolute* gradient and is smaller
than the magnitude of the (negative) gradient entries seen. -/
theorem grad_max_not_running_abs_max :
    (MomentumOptimizer.layer_update
        (⟨1, 0, 0, none, fun _ _ => 0, fun _ => 0⟩ : MomentumState 0 0)
        (fun _ _ => 0) (fun _ => 0) (fun _ _ => -5) (fun _ => -5) 0).grad_max
      = 0
    ∧ ¬ (|(-5 : ℚ)|
        ≤ (MomentumOptimizer.layer_update
            (⟨1, 0, 0, none, fun _ _ => 0, fun _ => 0⟩ : MomentumState 0 0)
            (fun _ _ => 0) (fun _ => 0) (fun _ _ => -5) (fun _ => -5) 0).grad_max) := by
  constructor
  · decide
  · decide

/-- C3 amended: the third value returned by `layer_update` of both
optimizers is `max(grad_max, m)` where `m` is the weight-gradient entry of
largest magnitude (clipped for Momentum, raw for AdaGrad) kept *with its
sign* (ties resolved to `.max()`): it is at least the passed-in running max,
and `m` bounds the magnitude of every weight-gradient entry, but the
returned value itself need not. -/
theorem grad_max_running_signed_max {p q : ℕ} (s : MomentumState p q)
    (W dJdW : Fin (p+1) → Fin (q+1) → ℚ) (b dJdb : Fin (q+1) → ℚ) (gm : ℚ)
    (sqrt : ℚ → ℚ) (sa : AdaGradState p q)
    (aW : Fin (p+1) → Fin (q+1) → ℚ) (ab : Fin (q+1) → ℚ) (agm : ℚ)
    (i : Fin (p+1)) (j : Fin (q+1)) :
    (MomentumOptimizer.layer_update s W b dJdW dJdb gm).grad_max
        = max gm (maxByAbs (matMax (fun u v => clipAt s.clip_thresh (dJdW u v)))
                           (matMin (fun u v => clipAt s.clip_thresh (dJdW u v))))
    ∧ gm ≤ (MomentumOptimizer.layer_update s W b dJdW dJdb gm).grad_max
    ∧ |clipAt s.clip_thresh (dJdW i j)|
        ≤ |maxByAbs (matMax (fun u v => clipAt s.clip_thresh (dJdW u v)))
                    (matMin (fun u v => clipAt s.clip_thresh (dJdW u v)))|
    ∧ (AdaGradOptimizer.layer_update sqrt sa aW ab agm).grad_max
        = max agm (maxByAbs (matMax aW) (matMin aW))
    ∧ agm ≤ (AdaGradOptimizer.layer_update sqrt sa aW ab agm).grad_max
    ∧ |aW i j| ≤ |maxByAbs (matMax aW) (matMin aW)| := by
  refine ⟨rfl, ?_, abs_le_abs_maxByAbs _ i j, rfl, ?_, abs_le_abs_maxByAbs _ i j⟩
  · exact le_max_left _ _
  · exact le_max_left _ _

/-- C7: across `AdaGradOptimizer.layer_update` calls the cache entries are
non-decreasing (strictly when the corresponding gradient entry is nonzero),
the returned update equals `lr * gradient / sqrt(cache + epsilon)` with the
cache already accumulated, and two successive calls with the same nonzero
gradient entry produce a strictly smaller update magnitude (given that
`np.sqrt` is positive and strictly monotone on positives). -/
theorem adagrad_cache_monotone_update_shrinks {p q : ℕ} (sqrt : ℚ → ℚ)
    (s : AdaGradState p q) (dJdW : Fin (p+1) → Fin (q+1) → ℚ)
    (dJdb : Fin (q+1) → ℚ) (gm : ℚ) (i i' : Fin (p+1)) (j j' : Fin (q+1))
    (hc : 0 ≤ s.cW i j) (heps : 0 < s.epsilon) (hlr : s.lr ≠ 0)
    (hg : dJdW i j ≠ 0)
    (hs_mono : ∀ a c : ℚ, 0 < a → a < c → sqrt a < sqrt c)
    (hs_pos : ∀ a : ℚ, 0 < a → 0 < sqrt a) :
    (s.cW i' j'
        ≤ (AdaGradOptimizer.layer_update sqrt s dJdW dJdb gm).state.cW i' j')
    ∧ (dJdW i' j' ≠ 0 → s.cW i' j'
        < (AdaGradOptimizer.layer_update sqrt s dJdW dJdb gm).state.cW i' j')
    ∧ (s.cb j'
        ≤ (AdaGradOptimizer.layer_update sqrt s dJdW dJdb gm).state.cb j')
    ∧ (dJdb j' ≠ 0 → s.cb j'
        < (AdaGradOptimizer.layer_update sqrt s dJdW dJdb gm).state.cb j')
    ∧ (AdaGradOptimizer.layer_update sqrt s dJdW dJdb gm).w_update i j
        = s.lr * (dJdW i j /
            sqrt ((AdaGradOptimizer.layer_update sqrt s dJdW dJdb gm).state.cW i j
              + s.epsilon))
    ∧ |(AdaGradOptimizer.layer_update sqrt
          (AdaGradOptimizer.layer_update sqrt s dJdW dJdb gm).state dJdW dJdb
          (AdaGradOptimizer.layer_update sqrt s dJdW dJdb gm).grad_max).w_update i j|
        < |(AdaGradOptimizer.layer_update sqrt s dJdW dJdb gm).w_update i j| := by
  have hg2 : 0 < dJdW i j ^ 2 := by positivity
  have h1 : 0 < s.cW i j + dJdW i j ^ 2 + s.epsilon := by linarith
  have hlt : s.cW i j + dJdW i j ^ 2 + s.epsilon
      < s.cW i j + dJdW i j ^ 2 + dJdW i j ^ 2 + s.epsilon := by linarith
  refine ⟨le_add_of_nonneg_right (sq_nonneg _), ?_, le_add_of_nonneg_right (sq_nonneg _),
    ?_, rfl, ?_⟩
  · intro hne
    have : 0 < dJdW i' j' ^ 2 := by positivity
    exact lt_add_of_pos_right _ this
  · intro hne
    have : 0 < dJdb j' ^ 2 := by positivity
    exact lt_add_of_pos_right _ this
  · have key : ∀ d e : ℚ, 0 < d → d < e →
        |s.lr * (dJdW i j / e)| < |s.lr * (dJdW i j / d)| := by
      intro d e hd hde
      rw [abs_mul, abs_mul, abs_div, abs_div, abs_of_pos hd,
        abs_of_pos (lt_trans hd hde)]
      exact mul_lt_mul_of_pos_left
        (div_lt_div_of_pos_left (abs_pos.2 hg) hd hde) (abs_pos.2 hlr)
    exact key (sqrt (s.cW i j + dJdW i j ^ 2 + s.epsilon))
      (sqrt (s.cW i j + dJdW i j ^ 2 + dJdW i j ^ 2 + s.epsilon))
      (hs_pos _ h1) (hs_mono _ _ h1 hlt)

/-- Witness for C7 at `sqrt = fun x => x`, `lr = 1`, `epsilon = 1`,
zero caches and constant gradient `1`. -/
theorem adagrad_cache_monotone_update_shrinks_witness :
    ((⟨1, 1, fun _ _ => 0, fun _ => 0⟩ : AdaGradState 0 0).cW 0 0
        ≤ (AdaGradOptimizer.layer_update (fun x => x)
            (⟨1, 1, fun _ _ => 0, fun _ => 0⟩ : AdaGradState 0 0)
            (fun _ _ => 1) (fun _ => 1) 0).state.cW 0 0)
    ∧ ((fun (_ : Fin 1) (_ : Fin 1) => (1 : ℚ)) 0 0 ≠ 0 →
        (⟨1, 1, fun _ _ => 0, fun _ => 0⟩ : AdaGradState 0 0).cW 0 0
          < (AdaGradOptimizer.layer_update (fun x => x)
              (⟨1, 1, fun _ _ => 0, fun _ => 0⟩ : AdaGradState 0 0)
              (fun _ _ => 1) (fun _ => 1) 0).state.cW 0 0)
    ∧ ((⟨1, 1, fun _ _ => 0, fun _ => 0⟩ : AdaGradState 0 0).cb 0
        ≤ (AdaGradOptimizer.layer_update (fun x => x)
            (⟨1, 1, fun _ _ => 0, fun _ => 0⟩ : AdaGradState 0 0)
            (fun _ _ => 1) (fun _ => 1) 0).state.cb 0)
    ∧ ((fun (_ : Fin 1) => (1 : ℚ)) 0 ≠ 0 →
        (⟨1, 1, fun _ _ => 0, fun _ => 0⟩ : AdaGradState 0 0).cb 0
          < (AdaGradOptimizer.layer_update (fun x => x)
              (⟨1, 1, fun _ _ => 0, fun _ => 0⟩ : AdaGradState 0 0)
              (fun _ _ => 1) (fun _ => 1) 0).state.cb 0)
    ∧ ((AdaGradOptimizer.layer_update (fun x => x)
          (⟨1, 1, fun _ _ => 0, fun _ => 0⟩ : AdaGradState 0 0)
          (fun _ _ => 1) (fun _ => 1) 0).w_update 0 0
        = (⟨1, 1, fun _ _ => 0, fun _ => 0⟩ : AdaGradState 0 0).lr
          * ((fun (_ : Fin 1) (_ : Fin 1) => (1 : ℚ)) 0 0 /
            (fun x => x)
              ((AdaGradOptimizer.layer_update (fun x => x)
                  (⟨1, 1, fun _ _ => 0, fun _ => 0⟩ : AdaGradState 0 0)
                  (fun _ _ => 1) (fun _ => 1) 0).state.cW 0 0
                + (⟨1, 1, fun _ _ => 0, fun _ => 0⟩ : AdaGradState 0 0).epsilon)))
    ∧ |(AdaGradOptimizer.layer_update (fun x => x)
          (AdaGradOptimizer.layer_update (fun x => x)
            (⟨1, 1, fun _ _ => 0, fun _ => 0⟩ : AdaGradState 0 0)
            (fun _ _ => 1) (fun _ => 1) 0).state (fun _ _ => 1) (fun _ => 1)
          (AdaGradOptimizer.layer_update (fun x => x)
            (⟨1, 1, fun _ _ => 0, fun _ => 0⟩ : AdaGradState 0 0)
            (fun _ _ => 1) (fun _ => 1) 0).grad_max).w_update 0 0|
        < |(AdaGradOptimizer.layer_update (fun x => x)
            (⟨1, 1, fun _ _ => 0, fun _ => 0⟩ : AdaGradState 0 0)
            (fun _ _ => 1) (fun _ => 1) 0).w_update 0 0| :=
  adagrad_cache_monotone_update_shrinks (fun x => x) _ _ _ _ 0 0 0 0
    le_rfl one_pos one_ne_zero one_ne_zero
    (fun _ _ _ hac => hac) (fun _ ha => ha)

/-- C10: `MomentumOptimizer.layer_update` clips the caller-supplied gradient
arrays in place — after the call the caller's arrays hold `clip_thresh`
(resp. `-clip_thresh`) wherever the entry exceeded the threshold and the
original value elsewhere, the regularization/velocity lines rebinding fresh
arrays without touching them further — while `AdaGradOptimizer.layer_update`
leaves its gradient arguments unmodified.  (The threshold is taken
nonnegative, as any meaningful "maximum gradient allowed" is.) -/
theorem gradient_clip_frame_effects {p q : ℕ} (s : MomentumState p q)
    (W dJdW : Fin (p+1) → Fin (q+1) → ℚ) (b dJdb : Fin (q+1) → ℚ) (gm : ℚ)
    (t : ℚ) (ht : s.clip_thresh = some t) (h0 : 0 ≤ t)
    (i : Fin (p+1)) (j : Fin (q+1))
    (sqrt : ℚ → ℚ) (sa : AdaGradState p q)
    (aW : Fin (p+1) → Fin (q+1) → ℚ) (ab : Fin (q+1) → ℚ) (agm : ℚ) :
    ((MomentumOptimizer.layer_update s W b dJdW dJdb gm).dJdW_out i j
        = if dJdW i j > t then t
          else if dJdW i j < -1 * t then -1 * t else dJdW i j)
    ∧ (dJdW i j > t →
        (MomentumOptimizer.layer_update s W b dJdW dJdb gm).dJdW_out i j = t)
    ∧ (dJdW i j < -1 * t →
        (MomentumOptimizer.layer_update s W b dJdW dJdb gm).dJdW_out i j = -1 * t)
    ∧ (-1 * t ≤ dJdW i j → dJdW i j ≤ t →
        (MomentumOptimizer.layer_update s W b dJdW dJdb gm).dJdW_out i j
          = dJdW i j)
    ∧ ((MomentumOptimizer.layer_update s W b dJdW dJdb gm).dJdb_out j
        = if dJdb j > t then t
          else if dJdb j < -1 * t then -1 * t else dJdb j)
    ∧ (AdaGradOptimizer.layer_update sqrt sa aW ab agm).dJdW_out = aW
    ∧ (AdaGradOptimizer.layer_update sqrt sa aW ab agm).dJdb_out = ab := by
  have hchain : ∀ x : ℚ, clipAt (some t) x
      = if x > t then t else if x < -1 * t then -1 * t else x := by
    intro x
    show (if (if x > t then t else x) < -1 * t then -1 * t
        else (if x > t then t else x)) = _
    by_cases hx : x > t
    · simp only [if_pos hx]
      rw [if_neg (not_lt.2 (by linarith : -1 * t ≤ t))]
    · simp only [if_neg hx]
  have hW : (MomentumOptimizer.layer_update s W b dJdW dJdb gm).dJdW_out i j
      = if dJdW i j > t then t
        else if dJdW i j < -1 * t then -1 * t else dJdW i j := by
    show clipAt s.clip_thresh (dJdW i j) = _
    rw [ht]
    exact hchain _
  refine ⟨hW, ?_, ?_, ?_, ?_, rfl, rfl⟩
  · intro h
    rw [hW, if_pos h]
  · intro h
    have hnotgt : ¬ dJdW i j > t := not_lt.2 (by linarith)
    rw [hW, if_neg hnotgt, if_pos h]
  · intro h1 h2
    rw [hW, if_neg (not_lt.2 h2), if_neg (not_lt.2 h1)]
  · show clipAt s.clip_thresh (dJdb j) = _
    rw [ht]
    exact hchain _

/-- Witness for C10 at `clip_thresh = 1` and gradients `5` (weights) and
`-5` (biases). -/
theorem gradient_clip_frame_effects_witness :
    ((MomentumOptimizer.layer_update
        (⟨1, 0, 0, some 1, fun _ _ => 0, fun _ => 0⟩ : MomentumState 0 0)
        (fun _ _ => 0) (fun _ => 0) (fun _ _ => 5) (fun _ => -5) 0).dJdW_out 0 0
        = if (fun (_ : Fin 1) (_ : Fin 1) => (5 : ℚ)) 0 0 > 1 then 1
          else if (fun (_ : Fin 1) (_ : Fin 1) => (5 : ℚ)) 0 0 < -1 * 1 then -1 * 1
          else (fun (_ : Fin 1) (_ : Fin 1) => (5 : ℚ)) 0 0)
    ∧ ((fun (_ : Fin 1) (_ : Fin 1) => (5 : ℚ)) 0 0 > 1 →
        (MomentumOptimizer.layer_update
          (⟨1, 0, 0, some 1, fun _ _ => 0, fun _ => 0⟩ : MomentumState 0 0)
          (fun _ _ => 0) (fun _ => 0) (fun _ _ => 5) (fun _ => -5) 0).dJdW_out 0 0 = 1)
    ∧ ((fun (_ : Fin 1) (_ : Fin 1) => (5 : ℚ)) 0 0 < -1 * 1 →
        (MomentumOptimizer.layer_update
          (⟨1, 0, 0, some 1, fun _ _ => 0, fun _ => 0⟩ : MomentumState 0 0)
          (fun _ _ => 0) (fun _ => 0) (fun _ _ => 5) (fun _ => -5) 0).dJdW_out 0 0
            = -1 * 1)
    ∧ (-1 * 1 ≤ (fun (_ : Fin 1) (_ : Fin 1) => (5 : ℚ)) 0 0 →
        (fun (_ : Fin 1) (_ : Fin 1) => (5 : ℚ)) 0 0 ≤ 1 →
        (MomentumOptimizer.layer_update
          (⟨1, 0, 0, some 1, fun _ _ => 0, fun _ => 0⟩ : MomentumState 0 0)
          (fun _ _ => 0) (fun _ => 0) (fun _ _ => 5) (fun _ => -5) 0).dJdW_out 0 0
            = (fun (_ : Fin 1) (_ : Fin 1) => (5 : ℚ)) 0 0)
    ∧ ((MomentumOptimizer.layer_update
          (⟨1, 0, 0, some 1, fun _ _ => 0, fun _ => 0⟩ : MomentumState 0 0)
          (fun _ _ => 0) (fun _ => 0) (fun _ _ => 5) (fun _ => -5) 0).dJdb_out 0
        = if (fun (_ : Fin 1) => (-5 : ℚ)) 0 > 1 then 1
          else if (fun (_ : Fin 1) => (-5 : ℚ)) 0 < -1 * 1 then -1 * 1
          else (fun (_ : Fin 1) => (-5 : ℚ)) 0)
    ∧ (AdaGradOptimizer.layer_update (fun x => x)
        (⟨1, 1, fun _ _ => 0, fun _ => 0⟩ : AdaGradState 0 0)
        (fun _ _ => 5) (fun _ => -5) 0).dJdW_out = (fun _ _ => 5)
    ∧ (AdaGradOptimizer.layer_update (fun x => x)
        (⟨1, 1, fun _ _ => 0, fun _ => 0⟩ : AdaGradState 0 0)
        (fun _ _ => 5) (fun _ => -5) 0).dJdb_out = (fun _ => -5) :=
  gradient_clip_frame_effects _ _ _ _ _ _ 1 rfl (by norm_num) 0 0
    (fun x => x) _ _ _ _

/-- Witness for C4 at the concrete kernel name "gaussian" with
`vectorized=True` (error case) and `vectorized=None` (default case). -/
theorem svm_fit_vectorized_validation_witness :
    (SVM.fit_validate "gaussian" (some true) = Except.error ()
        ↔ ((some true : Option Bool) = some true ∧ "gaussian" ≠ "linear"))
    ∧ SVM.fit_validate "gaussian" none = Except.ok (decide ("gaussian" = "linear"))
    ∧ SVM.fit_validate "gaussian" none ≠ Except.error () :=
  svm_fit_vectorized_validation "gaussian" (some true)
